import Mathlib

/-!
Internal: OTP vendor registry and SMTP e-mail client.

A shallow embedding of the two Go packages of the repository,
`golang/otp-whatsapp/general.go` (package `otpWhatsapp`) and
`golang/smtp/smtp.go` (package `email`), followed by the theorems that settle
the claims C1 .. C10 of the specification against that embedding.

Conventions of the embedding.

* A Go `string` is a Lean `String`; `[]byte(s)` is the same sequence and is
  also a `String`.
* A Go result pair `(v, err)` is a Lean pair whose error component is an
  `Option GoError` (`none` is the nil error); a pointer or interface result
  that may be nil is an `Option`.
* Calls that leave the program (`vendor.SendOtp`, `smtp.SendMail`,
  `log.Println`) act on an explicit world state and are recorded in a trace,
  so that "called exactly once" and "not called" are statements about the
  trace.
-/

namespace Internal

/-! ## Go error values -/

/-- A Go `error` value as the two packages build it: `errors.New msg` and
`fmt.Errorf msg` without a verb give `new msg`; `fmt.Errorf (ctx ++ "%w") err`
gives `wrap ctx err`. -/
inductive GoError where
  | new (msg : String)
  | wrap (ctx : String) (err : GoError)
  deriving DecidableEq, Repr

namespace GoError

/-- The method `Error()`: the message; a wrapping error prints its context
followed by the message of the error it wraps. -/
def Error : GoError → String
  | new msg => msg
  | wrap ctx err => ctx ++ err.Error

/-- The method `Unwrap()`, as `errors.Unwrap` reads it: the wrapped error of a
`%w` error, nil otherwise. -/
def Unwrap : GoError → Option GoError
  | new _ => none
  | wrap _ err => some err

end GoError

/-- Go's `strings.Contains s substr`: `substr` occurs in `s` as a contiguous
run. -/
def Contains (s substr : String) : Prop := substr.data <:+: s.data

instance (s substr : String) : Decidable (Contains s substr) := by
  unfold Contains; infer_instance

/-! ## Package otpWhatsapp (golang/otp-whatsapp/general.go) -/

namespace otpWhatsapp

/-- Go: `type OTPProvider string`. -/
abbrev OTPProvider := String

def MESSAGE_OTP_CODE : String := "[OTP_CODE]"
def MESSAGE_ACTION_CODE : String := "[ACTION_NAME]"
def MESSAGE_CLIENT_CODE : String := "[CLIENT_NAME]"
def MESSAGE_TEMPLATE : String :=
  "Welcome to TEST. Your request " ++ MESSAGE_ACTION_CODE ++
    " requires OTP.  Here is your OTP CODE: " ++ MESSAGE_OTP_CODE

def VENDOR_WATZAP : OTPProvider := "watzap"
def VENDOR_FONNTE : OTPProvider := "fonnte"

def COUNTRY_PHONE_SEPARATOR : String := "."
def COUNTRY_PHONE_PREFIX : String := "+"

def ERR_NOT_FOUND_VENDOR : String := "not found vendor"
def ERR_PHONE_EMPTY : String := "phone empty"
def ERR_NOT_AVAILABLE_SERVICE : String := "not available service"

def COUNTRY_CODE_INDONESIA : String := "62"

/-- Go: `type OTPVendor struct`. -/
structure OTPVendor where
  Title : String
  APIKey : String
  Url : String
  NumberKey : String
  DefaultMessage : String
  deriving DecidableEq, Repr

/-- The zero value of `OTPVendor`. -/
def OTPVendor.zero : OTPVendor :=
  { Title := "", APIKey := "", Url := "", NumberKey := "", DefaultMessage := "" }

/-- Modelled from the spec: the request struct types of `WatzapOtp` and
`FonnteOtp` are declared in files of the package other than general.go. The
spec (section 6) only lists what a request carries: API key, phone, message,
"and for one vendor, a target + country-code field". A request value is
therefore kept as the list of its string fields that have been assigned, by
field name; a field that was never assigned reads as the zero value `""`,
whatever fields the declaration has. -/
abbrev Request := List (String × String)

namespace Request

/-- The zero value of a request struct: no field assigned. -/
def zero : Request := []

/-- Read field `name`: the assigned value, or the zero value `""`. -/
def get (r : Request) (name : String) : String :=
  match r.find? (fun p => p.1 = name) with
  | some p => p.2
  | none => ""

/-- The assignment `r.name = value`. -/
def set (r : Request) (name value : String) : Request :=
  (name, value) :: r.filter (fun p => p.1 ≠ name)

/-- The names of the fields that have been assigned. -/
def assigned (r : Request) : List String := r.map Prod.fst

end Request

/-- Modelled from the spec: `WatzapOtp` is declared outside general.go;
`InitVendor` uses its fields `Vendor` (an `OTPVendor`) and `Request`. -/
structure WatzapOtp where
  Vendor : OTPVendor
  Request : Request
  deriving DecidableEq, Repr

/-- Modelled from the spec: `FonnteOtp` is declared outside general.go;
`InitVendor` uses its fields `Vendor` (an `OTPVendor`) and `Request`. -/
structure FonnteOtp where
  Vendor : OTPVendor
  Request : Request
  deriving DecidableEq, Repr

/-- The zero value that `var otpW WatzapOtp` declares. -/
def WatzapOtp.zero : WatzapOtp := { Vendor := OTPVendor.zero, Request := Request.zero }

/-- The zero value that `var otpF FonnteOtp` declares. -/
def FonnteOtp.zero : FonnteOtp := { Vendor := OTPVendor.zero, Request := Request.zero }

/-- The non-nil values of interface `OTPProviderAPI` that `InitVendor` builds:
a pointer to a `WatzapOtp` or to a `FonnteOtp`. The nil interface is `none`. -/
inductive OTPSender where
  | watzap (otpW : WatzapOtp)
  | fonnte (otpF : FonnteOtp)
  deriving DecidableEq, Repr

namespace OTPSender

/-- The `Vendor` field of the struct behind the interface value. -/
def Vendor : OTPSender → OTPVendor
  | watzap otpW => otpW.Vendor
  | fonnte otpF => otpF.Vendor

/-- The `Request` field of the struct behind the interface value. -/
def Request : OTPSender → Request
  | watzap otpW => otpW.Request
  | fonnte otpF => otpF.Request

end OTPSender

/-- Go: `func InitVendor(vendorName OTPProvider, apiKey, numberKey,
defaultMessage string) (OTPProviderAPI, error)`. -/
def InitVendor (vendorName : OTPProvider) (apiKey numberKey defaultMessage : String) :
    Option OTPSender × Option GoError :=
  let defMessage := if defaultMessage ≠ "" then defaultMessage else MESSAGE_TEMPLATE
  if vendorName = VENDOR_WATZAP then
    let otpW := WatzapOtp.zero
    let otpW := { otpW with
      Vendor := { OTPVendor.zero with
        Title := vendorName, APIKey := apiKey, DefaultMessage := defMessage } }
    let otpW := { otpW with Request := otpW.Request.set "ApiKey" apiKey }
    let otpW := { otpW with Request := otpW.Request.set "NumberKey" numberKey }
    let otpW := { otpW with Request := otpW.Request.set "Message" defMessage }
    (some (OTPSender.watzap otpW), none)
  else if vendorName = VENDOR_FONNTE then
    let otpF := FonnteOtp.zero
    let otpF := { otpF with
      Vendor := { OTPVendor.zero with
        Title := vendorName, APIKey := apiKey, DefaultMessage := defMessage } }
    let otpF := { otpF with Request := otpF.Request.set "Target" numberKey }
    let otpF := { otpF with Request := otpF.Request.set "Message" defMessage }
    let otpF := { otpF with Request := otpF.Request.set "CountryCode" COUNTRY_CODE_INDONESIA }
    (some (OTPSender.fonnte otpF), none)
  else
    (none, some (GoError.new ERR_NOT_FOUND_VENDOR))

/-- What `SendOTP` does outside its own frame, in order. -/
inductive Event where
  | SendOtp (phone otpCode : String)
  | Println (args : List String)
  deriving DecidableEq, Repr

/-- Go: `type OTPProviderAPI interface { SendOtp(phone, otpCode string)
(string, error) }`, for `SendOTP`, which only calls the method: an arbitrary
implementation, acting on a world state `σ` (the network). -/
structure OTPProviderAPI (σ : Type) where
  SendOtp : String → String → σ → (String × Option GoError) × σ

/-- Go: `func SendOTP(vendor OTPProviderAPI, phone, otpCode string) (string,
error)`. Returns the Go result, the world after the call and the trace. -/
def SendOTP {σ : Type} (vendor : OTPProviderAPI σ) (phone otpCode : String) (w : σ) :
    (String × Option GoError) × σ × List Event :=
  let r := vendor.SendOtp phone otpCode w
  let resp := r.1.1
  match r.1.2 with
  | some err =>
    (("", some err), r.2,
      [Event.SendOtp phone otpCode,
       Event.Println ["error when send OTP . Err : ", err.Error]])
  | none => ((resp, none), r.2, [Event.SendOtp phone otpCode])

/-- The calls of the sender's `SendOtp` in a trace, with their arguments. -/
def sendOtpCalls : List Event → List (String × String)
  | [] => []
  | Event.SendOtp phone otpCode :: es => (phone, otpCode) :: sendOtpCalls es
  | Event.Println _ :: es => sendOtpCalls es

end otpWhatsapp

/-! ## Package email (golang/smtp/smtp.go) -/

namespace email

/-- The values of interface `smtp.Auth` that package net/smtp constructs:
`smtp.PlainAuth identity username password host` and
`smtp.CRAMMD5Auth username secret`. Only the first is built in smtp.go. -/
inductive Auth where
  | PlainAuth (identity username password host : String)
  | CRAMMD5Auth (username secret : String)
  deriving DecidableEq, Repr

/-- Go: `type Provider interface { GetAuth() smtp.Auth; GetAddress() string;
GetFrom() string }`. The three methods take no argument, so an
implementation is given by what each returns. -/
structure Provider where
  GetAuth : Auth
  GetAddress : String
  GetFrom : String
  deriving DecidableEq, Repr

/-- Go: `type Client struct { provider Provider }`. -/
structure Client where
  provider : Provider
  deriving DecidableEq, Repr

/-- Go: `func NewClient(provider Provider) *Client`. -/
def NewClient (provider : Provider) : Client := { provider := provider }

/-- Go: `type EmailMessage struct`. -/
structure EmailMessage where
  To : List String
  Subject : String
  Body : String
  deriving DecidableEq, Repr

/-- One call `smtp.SendMail(addr, a, from, to, msg)`, with its arguments
(`from` and `to` are written `sender` and `recipients`). -/
structure SendMailCall where
  addr : String
  a : Auth
  sender : String
  recipients : List String
  msg : String
  deriving DecidableEq, Repr

/-- The transport `smtp.SendMail` of package net/smtp, external to the
repository: an arbitrary function of its five arguments acting on a world
state `σ` (the network) and returning an error or nil. -/
abbrev SendMail (σ : Type) :=
  String → Auth → String → List String → String → σ → Option GoError × σ

/-- Go: `func (c *Client) SendEmail(msg *EmailMessage) error`. Returns the Go
result, the world after the call and the trace of transport calls. -/
def Client.SendEmail {σ : Type} (c : Client) (msg : EmailMessage)
    (transport : SendMail σ) (w : σ) : Option GoError × σ × List SendMailCall :=
  let auth := c.provider.GetAuth
  let addr := c.provider.GetAddress
  let sender := c.provider.GetFrom
  let mime := "MIME-version: 1.0;\r\nContent-Type: text/html; charset=\"UTF-8\";\r\n\r\n"
  let message := "Subject: " ++ msg.Subject ++ "\r\n" ++ mime ++ msg.Body
  let r := transport addr auth sender msg.To message w
  (r.1, r.2, [{ addr := addr, a := auth, sender := sender, recipients := msg.To, msg := message }])

/-- The type `*template.Template` of package html/template, external to the
repository, as far as smtp.go uses it: `Execute` applied to the data gives
what was written to the buffer and an error or nil. -/
structure Template (δ : Type) where
  Execute : δ → String × Option GoError

/-- Go: `func (c *Client) SendTemplateEmail(to []string, subject string, tmpl
*template.Template, data interface{}) error`. -/
def Client.SendTemplateEmail {σ δ : Type} (c : Client) (recipients : List String) (subject : String)
    (tmpl : Template δ) (data : δ) (transport : SendMail σ) (w : σ) :
    Option GoError × σ × List SendMailCall :=
  let r := tmpl.Execute data
  let buffer := r.1
  match r.2 with
  | some err => (some (GoError.wrap "template execution failed: " err), w, [])
  | none =>
    let msg : EmailMessage := { To := recipients, Subject := subject, Body := buffer }
    c.SendEmail msg transport w

/-- Go: `func (c *Client) SendSingleEmail(to string, subject string, tmpl
*template.Template, data interface{}) error`. -/
def Client.SendSingleEmail {σ δ : Type} (c : Client) (recipient : String) (subject : String)
    (tmpl : Template δ) (data : δ) (transport : SendMail σ) (w : σ) :
    Option GoError × σ × List SendMailCall :=
  c.SendTemplateEmail [recipient] subject tmpl data transport w

/-- Go: `type SMTPConfig struct`. -/
structure SMTPConfig where
  Host : String
  Port : String
  Username : String
  Password : String
  deriving DecidableEq, Repr

/-- Go: `func (c *SMTPConfig) Validate() error`. -/
def SMTPConfig.Validate (c : SMTPConfig) : Option GoError :=
  if c.Host = "" then some (GoError.new "host is required")
  else if c.Port = "" then some (GoError.new "port is required")
  else if c.Username = "" then some (GoError.new "username is required")
  else if c.Password = "" then some (GoError.new "password is required")
  else none

/-- Go: `type GenericSMTPProvider struct { config SMTPConfig }`. -/
structure GenericSMTPProvider where
  config : SMTPConfig
  deriving DecidableEq, Repr

/-- Go: `func NewGenericSMTPProvider(config SMTPConfig) (*GenericSMTPProvider,
error)`. -/
def NewGenericSMTPProvider (config : SMTPConfig) :
    Option GenericSMTPProvider × Option GoError :=
  match config.Validate with
  | some err => (none, some (GoError.wrap "invalid config: " err))
  | none => (some { config := config }, none)

namespace GenericSMTPProvider

/-- Go: `func (p *GenericSMTPProvider) GetAuth() smtp.Auth`. -/
def GetAuth (p : GenericSMTPProvider) : Auth :=
  Auth.PlainAuth "" p.config.Username p.config.Password p.config.Host

/-- Go: `func (p *GenericSMTPProvider) GetAddress() string`. -/
def GetAddress (p : GenericSMTPProvider) : String :=
  p.config.Host ++ ":" ++ p.config.Port

/-- Go: `func (p *GenericSMTPProvider) GetFrom() string`. -/
def GetFrom (p : GenericSMTPProvider) : String :=
  p.config.Username

/-- A `*GenericSMTPProvider` as a value of interface `Provider`. -/
def toProvider (p : GenericSMTPProvider) : Provider :=
  { GetAuth := p.GetAuth, GetAddress := p.GetAddress, GetFrom := p.GetFrom }

end GenericSMTPProvider

/-- Go: `type GmailProvider struct { *GenericSMTPProvider }`. The embedded
pointer may be nil (`none`). -/
structure GmailProvider where
  GenericSMTPProvider : Option GenericSMTPProvider
  deriving DecidableEq, Repr

/-- Go: `func NewGmailProvider(username, password string) (*GmailProvider,
error)`. -/
def NewGmailProvider (username password : String) : Option GmailProvider × Option GoError :=
  let config : SMTPConfig :=
    { Host := "smtp.gmail.com", Port := "587", Username := username, Password := password }
  let r := NewGenericSMTPProvider config
  let generic := r.1
  match r.2 with
  | some err => (none, some err)
  | none => (some { GenericSMTPProvider := generic }, none)

/-- Go: `type ZohoProvider struct { *GenericSMTPProvider }`. The embedded
pointer may be nil (`none`). -/
structure ZohoProvider where
  GenericSMTPProvider : Option GenericSMTPProvider
  deriving DecidableEq, Repr

/-- Go: `func NewZohoProvider(username, password string) (*ZohoProvider,
error)`. -/
def NewZohoProvider (username password : String) : Option ZohoProvider × Option GoError :=
  let config : SMTPConfig :=
    { Host := "smtp.zoho.com", Port := "587", Username := username, Password := password }
  let r := NewGenericSMTPProvider config
  let generic := r.1
  match r.2 with
  | some err => (none, some err)
  | none => (some { GenericSMTPProvider := generic }, none)

/-- Go: `type OutlookProvider struct { *GenericSMTPProvider }`. The embedded
pointer may be nil (`none`). -/
structure OutlookProvider where
  GenericSMTPProvider : Option GenericSMTPProvider
  deriving DecidableEq, Repr

/-- Go: `func NewOutlookProvider(username, password string) (*OutlookProvider,
error)`. -/
def NewOutlookProvider (username password : String) :
    Option OutlookProvider × Option GoError :=
  let config : SMTPConfig :=
    { Host := "smtp.office365.com", Port := "587", Username := username, Password := password }
  let r := NewGenericSMTPProvider config
  let generic := r.1
  match r.2 with
  | some err => (none, some err)
  | none => (some { GenericSMTPProvider := generic }, none)

/-- The method `GetAddress` that `*GmailProvider` gets from its embedded
`*GenericSMTPProvider`; `none` is the panic of a nil embedded pointer. -/
def GmailProvider.GetAddress (p : GmailProvider) : Option String :=
  p.GenericSMTPProvider.map GenericSMTPProvider.GetAddress

/-- The promoted method `GetFrom` of `*GmailProvider`. -/
def GmailProvider.GetFrom (p : GmailProvider) : Option String :=
  p.GenericSMTPProvider.map GenericSMTPProvider.GetFrom

/-- The promoted method `GetAuth` of `*GmailProvider`. -/
def GmailProvider.GetAuth (p : GmailProvider) : Option Auth :=
  p.GenericSMTPProvider.map GenericSMTPProvider.GetAuth

/-- The promoted method `GetAddress` of `*ZohoProvider`. -/
def ZohoProvider.GetAddress (p : ZohoProvider) : Option String :=
  p.GenericSMTPProvider.map GenericSMTPProvider.GetAddress

/-- The promoted method `GetFrom` of `*ZohoProvider`. -/
def ZohoProvider.GetFrom (p : ZohoProvider) : Option String :=
  p.GenericSMTPProvider.map GenericSMTPProvider.GetFrom

/-- The promoted method `GetAuth` of `*ZohoProvider`. -/
def ZohoProvider.GetAuth (p : ZohoProvider) : Option Auth :=
  p.GenericSMTPProvider.map GenericSMTPProvider.GetAuth

/-- The promoted method `GetAddress` of `*OutlookProvider`. -/
def OutlookProvider.GetAddress (p : OutlookProvider) : Option String :=
  p.GenericSMTPProvider.map GenericSMTPProvider.GetAddress

/-- The promoted method `GetFrom` of `*OutlookProvider`. -/
def OutlookProvider.GetFrom (p : OutlookProvider) : Option String :=
  p.GenericSMTPProvider.map GenericSMTPProvider.GetFrom

/-- The promoted method `GetAuth` of `*OutlookProvider`. -/
def OutlookProvider.GetAuth (p : OutlookProvider) : Option Auth :=
  p.GenericSMTPProvider.map GenericSMTPProvider.GetAuth

end email

end Internal

/-! ## Theorems -/

namespace Internal

open otpWhatsapp email

/-! ### Auxiliary facts -/

/-- The message that `InitVendor` stores: the caller's when it is not empty,
the fixed template otherwise. -/
theorem defMessage_eq (defaultMessage : String) :
    (if defaultMessage ≠ "" then defaultMessage else MESSAGE_TEMPLATE) =
      if defaultMessage = "" then MESSAGE_TEMPLATE else defaultMessage := by
  by_cases h : defaultMessage = "" <;> simp [h]

/-- The messages that `InitVendor` stores for a known vendor name: the
`DefaultMessage` of the vendor config and the `Message` of the request are both
the caller's message when it is not empty, the fixed template otherwise. -/
theorem InitVendor_known_messages (vendorName : OTPProvider)
    (apiKey numberKey defaultMessage : String)
    (hv : vendorName = "watzap" ∨ vendorName = "fonnte") :
    ∃ sender, InitVendor vendorName apiKey numberKey defaultMessage = (some sender, none) ∧
      sender.Vendor.DefaultMessage =
        (if defaultMessage = "" then MESSAGE_TEMPLATE else defaultMessage) ∧
      sender.Request.get "Message" =
        (if defaultMessage = "" then MESSAGE_TEMPLATE else defaultMessage) := by
  rcases hv with hv | hv <;> subst hv <;>
    simp [InitVendor, VENDOR_WATZAP, VENDOR_FONNTE, WatzapOtp.zero, FonnteOtp.zero,
      OTPVendor.zero, Request.zero, Request.set, Request.get, OTPSender.Vendor,
      OTPSender.Request, defMessage_eq]

set_option maxRecDepth 100000 in
/-- The fixed template contains the OTP-code token. -/
theorem template_contains_otp_code : Contains MESSAGE_TEMPLATE "[OTP_CODE]" := by decide

set_option maxRecDepth 100000 in
/-- The fixed template contains the action-name token. -/
theorem template_contains_action_name : Contains MESSAGE_TEMPLATE "[ACTION_NAME]" := by decide

set_option maxRecDepth 100000 in
/-- The fixed template does not contain the client-name token. -/
theorem template_lacks_client_name : ¬ Contains MESSAGE_TEMPLATE "[CLIENT_NAME]" := by decide

/-! ### The vendor registry `InitVendor` -/

/-- C1: for every vendor name and every apiKey, numberKey and defaultMessage,
`InitVendor` fails exactly when the name is neither "watzap" nor "fonnte": for
every unrecognized name it returns nil together with the error
"not found vendor", and for each of the two known names it returns a sender
and no error. -/
theorem InitVendor_fails_iff_unrecognized (vendorName : OTPProvider)
    (apiKey numberKey defaultMessage : String) :
    ((InitVendor vendorName apiKey numberKey defaultMessage).2 ≠ none ↔
      (vendorName ≠ "watzap" ∧ vendorName ≠ "fonnte")) ∧
    ((vendorName ≠ "watzap" ∧ vendorName ≠ "fonnte") →
      InitVendor vendorName apiKey numberKey defaultMessage =
        (none, some (GoError.new "not found vendor")) ∧
      (GoError.new "not found vendor").Error = "not found vendor") ∧
    ((vendorName = "watzap" ∨ vendorName = "fonnte") →
      ∃ sender, InitVendor vendorName apiKey numberKey defaultMessage = (some sender, none)) := by
  by_cases hw : vendorName = "watzap"
  · subst hw
    simp [InitVendor, VENDOR_WATZAP]
  · by_cases hf : vendorName = "fonnte"
    · subst hf
      simp [InitVendor, VENDOR_WATZAP, VENDOR_FONNTE]
    · simp [InitVendor, VENDOR_WATZAP, VENDOR_FONNTE, ERR_NOT_FOUND_VENDOR, GoError.Error, hw, hf]

/-- C1, at concrete inputs: the name "twilio" is rejected with nil and
"not found vendor", the name "fonnte" is accepted. -/
theorem InitVendor_fails_iff_unrecognized_witness :
    InitVendor "twilio" "K1" "N1" "" = (none, some (GoError.new "not found vendor")) ∧
    ∃ sender, InitVendor "fonnte" "K1" "N1" "" = (some sender, none) :=
  ⟨((InitVendor_fails_iff_unrecognized "twilio" "K1" "N1" "").2.1 (by decide)).1,
   (InitVendor_fails_iff_unrecognized "fonnte" "K1" "N1" "").2.2 (Or.inr rfl)⟩

/-- C5: for every apiKey K, numberKey N and defaultMessage,
`InitVendor "watzap" K N defaultMessage` returns a Watzap sender and no error;
its request carries API key K and number key N, and its vendor config has
title "watzap" and API key K. -/
theorem InitVendor_watzap_carries_keys (K N defaultMessage : String) :
    ∃ otpW : WatzapOtp,
      InitVendor "watzap" K N defaultMessage = (some (OTPSender.watzap otpW), none) ∧
      otpW.Request.get "ApiKey" = K ∧
      otpW.Request.get "NumberKey" = N ∧
      otpW.Vendor.Title = "watzap" ∧
      otpW.Vendor.APIKey = K := by
  simp [InitVendor, VENDOR_WATZAP, WatzapOtp.zero, OTPVendor.zero, Request.zero, Request.set,
    Request.get]

/-- C5, at the inputs of the end-to-end scenario: API key "K1" and number key
"N1". -/
theorem InitVendor_watzap_carries_keys_witness :
    ∃ otpW : WatzapOtp,
      InitVendor "watzap" "K1" "N1" "" = (some (OTPSender.watzap otpW), none) ∧
      otpW.Request.get "ApiKey" = "K1" ∧
      otpW.Request.get "NumberKey" = "N1" ∧
      otpW.Vendor.Title = "watzap" ∧
      otpW.Vendor.APIKey = "K1" :=
  InitVendor_watzap_carries_keys "K1" "N1" ""

/-- C9: country-code defaulting is present for exactly one vendor. For every
apiKey, numberKey and defaultMessage, `InitVendor "fonnte"` returns a Fonnte
sender whose request has CountryCode "62" and Target numberKey, whereas the
request of the sender that `InitVendor "watzap"` returns has exactly the
fields ApiKey, NumberKey and Message assigned: CountryCode is not among them
and reads as the zero value. -/
theorem InitVendor_country_code_only_fonnte (apiKey numberKey defaultMessage : String) :
    (∃ otpF : FonnteOtp,
      InitVendor "fonnte" apiKey numberKey defaultMessage =
        (some (OTPSender.fonnte otpF), none) ∧
      otpF.Request.get "CountryCode" = "62" ∧
      otpF.Request.get "Target" = numberKey) ∧
    (∃ otpW : WatzapOtp,
      InitVendor "watzap" apiKey numberKey defaultMessage =
        (some (OTPSender.watzap otpW), none) ∧
      otpW.Request.assigned = ["Message", "NumberKey", "ApiKey"] ∧
      "CountryCode" ∉ otpW.Request.assigned ∧
      otpW.Request.get "CountryCode" = "") := by
  constructor
  · simp [InitVendor, VENDOR_WATZAP, VENDOR_FONNTE, FonnteOtp.zero, OTPVendor.zero,
      Request.zero, Request.set, Request.get, COUNTRY_CODE_INDONESIA]
  · simp [InitVendor, VENDOR_WATZAP, WatzapOtp.zero, OTPVendor.zero, Request.zero,
      Request.set, Request.get, Request.assigned]

/-- C9, at concrete inputs, with a caller who passes "1" for every argument:
the Fonnte request still has CountryCode "62". -/
theorem InitVendor_country_code_only_fonnte_witness :
    ∃ otpF : FonnteOtp,
      InitVendor "fonnte" "1" "1" "1" = (some (OTPSender.fonnte otpF), none) ∧
      otpF.Request.get "CountryCode" = "62" ∧
      otpF.Request.get "Target" = "1" :=
  (InitVendor_country_code_only_fonnte "1" "1" "1").1

/-- C7, as stated, fails: built for "watzap" with API key "K1", number key
"N1" and no custom message, the sender stores the fixed template, and the
stored message does not contain the client-name token "[CLIENT_NAME]". -/
theorem InitVendor_default_message_lacks_client_name :
    ∃ sender, InitVendor "watzap" "K1" "N1" "" = (some sender, none) ∧
      sender.Vendor.DefaultMessage = MESSAGE_TEMPLATE ∧
      sender.Request.get "Message" = MESSAGE_TEMPLATE ∧
      ¬ Contains sender.Vendor.DefaultMessage MESSAGE_CLIENT_CODE ∧
      ¬ Contains (sender.Request.get "Message") MESSAGE_CLIENT_CODE := by
  obtain ⟨sender, h, hd, hr⟩ := InitVendor_known_messages "watzap" "K1" "N1" "" (Or.inl rfl)
  simp only [if_true] at hd hr
  exact ⟨sender, h, hd, hr, hd ▸ template_lacks_client_name, hr ▸ template_lacks_client_name⟩

/-- C7, amended: for every known vendor name, apiKey and numberKey, when
defaultMessage is empty the message that `InitVendor` stores (vendor
DefaultMessage and request Message) is the fixed template; that template
contains the tokens "[OTP_CODE]" and "[ACTION_NAME]" and does not contain
"[CLIENT_NAME]". -/
theorem InitVendor_default_message_is_template (vendorName : OTPProvider)
    (apiKey numberKey : String) (hv : vendorName = "watzap" ∨ vendorName = "fonnte") :
    ∃ sender, InitVendor vendorName apiKey numberKey "" = (some sender, none) ∧
      sender.Vendor.DefaultMessage = MESSAGE_TEMPLATE ∧
      sender.Request.get "Message" = MESSAGE_TEMPLATE ∧
      Contains MESSAGE_TEMPLATE MESSAGE_OTP_CODE ∧
      Contains MESSAGE_TEMPLATE MESSAGE_ACTION_CODE ∧
      ¬ Contains MESSAGE_TEMPLATE MESSAGE_CLIENT_CODE := by
  obtain ⟨sender, h, hd, hr⟩ := InitVendor_known_messages vendorName apiKey numberKey "" hv
  simp only [if_true] at hd hr
  exact ⟨sender, h, hd, hr, template_contains_otp_code, template_contains_action_name,
    template_lacks_client_name⟩

/-- C7, amended, at the vendor "fonnte" with API key "K1" and number key
"N1". -/
theorem InitVendor_default_message_is_template_witness :
    ("fonnte" = "watzap" ∨ "fonnte" = "fonnte") ∧
    ∃ sender, InitVendor "fonnte" "K1" "N1" "" = (some sender, none) ∧
      sender.Vendor.DefaultMessage = MESSAGE_TEMPLATE ∧
      sender.Request.get "Message" = MESSAGE_TEMPLATE ∧
      Contains MESSAGE_TEMPLATE MESSAGE_OTP_CODE ∧
      Contains MESSAGE_TEMPLATE MESSAGE_ACTION_CODE ∧
      ¬ Contains MESSAGE_TEMPLATE MESSAGE_CLIENT_CODE :=
  ⟨Or.inr rfl, InitVendor_default_message_is_template "fonnte" "K1" "N1" (Or.inr rfl)⟩

/-- C10, as stated, fails: there is no known vendor name for which `InitVendor`,
called with some non-empty defaultMessage m, returns a sender whose vendor
DefaultMessage or request Message is not m. -/
theorem InitVendor_no_vendor_ignores_message :
    ¬ ∃ vendorName : OTPProvider, (vendorName = "watzap" ∨ vendorName = "fonnte") ∧
        ∃ apiKey numberKey m : String, m ≠ "" ∧
          ∃ sender, InitVendor vendorName apiKey numberKey m = (some sender, none) ∧
            (sender.Vendor.DefaultMessage ≠ m ∨ sender.Request.get "Message" ≠ m) := by
  rintro ⟨vendorName, hv, apiKey, numberKey, m, hm, sender, h, hne⟩
  obtain ⟨sender2, h2, hd, hr⟩ := InitVendor_known_messages vendorName apiKey numberKey m hv
  rw [h] at h2
  have hs : sender = sender2 := by
    simpa using congrArg Prod.fst h2
  subst hs
  rw [if_neg hm] at hd hr
  rcases hne with hne | hne
  · exact hne hd
  · exact hne hr

/-- C10, amended: for both known vendor names, `InitVendor` called with a
non-empty defaultMessage m returns a sender whose stored message (vendor
DefaultMessage and request Message) is m. -/
theorem InitVendor_stores_custom_message (vendorName : OTPProvider)
    (apiKey numberKey m : String) (hv : vendorName = "watzap" ∨ vendorName = "fonnte")
    (hm : m ≠ "") :
    ∃ sender, InitVendor vendorName apiKey numberKey m = (some sender, none) ∧
      sender.Vendor.DefaultMessage = m ∧
      sender.Request.get "Message" = m := by
  obtain ⟨sender, h, hd, hr⟩ := InitVendor_known_messages vendorName apiKey numberKey m hv
  rw [if_neg hm] at hd hr
  exact ⟨sender, h, hd, hr⟩

/-- C10, amended, at both vendors with the custom message
"Kode OTP: [OTP_CODE]". -/
theorem InitVendor_stores_custom_message_witness :
    (∃ sender, InitVendor "watzap" "K1" "N1" "Kode OTP: [OTP_CODE]" = (some sender, none) ∧
      sender.Vendor.DefaultMessage = "Kode OTP: [OTP_CODE]" ∧
      sender.Request.get "Message" = "Kode OTP: [OTP_CODE]") ∧
    (∃ sender, InitVendor "fonnte" "K1" "N1" "Kode OTP: [OTP_CODE]" = (some sender, none) ∧
      sender.Vendor.DefaultMessage = "Kode OTP: [OTP_CODE]" ∧
      sender.Request.get "Message" = "Kode OTP: [OTP_CODE]") :=
  ⟨InitVendor_stores_custom_message "watzap" "K1" "N1" "Kode OTP: [OTP_CODE]"
      (Or.inl rfl) (by decide),
   InitVendor_stores_custom_message "fonnte" "K1" "N1" "Kode OTP: [OTP_CODE]"
      (Or.inr rfl) (by decide)⟩

/-! ### The facade `SendOTP` -/

/-- C6: for every sender, phone and otpCode, `SendOTP` calls the sender's
`SendOtp` exactly once, with the same phone and otpCode, leaves the world as
that one call left it, and returns the sender's error unchanged (nil when the
sender returned nil, the same error value otherwise, never wrapped or
replaced); when the sender returned no error the response is returned
unmodified, and a failure is only logged. -/
theorem SendOTP_passes_outcome {σ : Type} (vendor : OTPProviderAPI σ)
    (phone otpCode : String) (w : σ) :
    sendOtpCalls (SendOTP vendor phone otpCode w).2.2 = [(phone, otpCode)] ∧
    (SendOTP vendor phone otpCode w).2.1 = (vendor.SendOtp phone otpCode w).2 ∧
    (SendOTP vendor phone otpCode w).1.2 = (vendor.SendOtp phone otpCode w).1.2 ∧
    ((vendor.SendOtp phone otpCode w).1.2 = none →
      (SendOTP vendor phone otpCode w).1 = ((vendor.SendOtp phone otpCode w).1.1, none) ∧
      (SendOTP vendor phone otpCode w).2.2 = [Event.SendOtp phone otpCode]) ∧
    (∀ err, (vendor.SendOtp phone otpCode w).1.2 = some err →
      (SendOTP vendor phone otpCode w).1 = ("", some err) ∧
      (SendOTP vendor phone otpCode w).2.2 =
        [Event.SendOtp phone otpCode,
         Event.Println ["error when send OTP . Err : ", err.Error]]) := by
  cases h : (vendor.SendOtp phone otpCode w).1.2 <;> simp [SendOTP, h, sendOtpCalls]

/-- C6, at a sender that counts its calls and fails with "timeout" on the
phone "+628123" and answers "sent" on any other: one call each time, the error
and the response come back as the sender gave them. -/
theorem SendOTP_passes_outcome_witness :
    SendOTP
        { SendOtp := fun phone _ n =>
            if phone = "+628123" then (("", some (GoError.new "timeout")), n + 1)
            else (("sent", none), n + 1) }
        "+628123" "123456" (0 : Nat) =
      (("", some (GoError.new "timeout")), 1,
        [Event.SendOtp "+628123" "123456",
         Event.Println ["error when send OTP . Err : ", "timeout"]]) ∧
    SendOTP
        { SendOtp := fun phone _ n =>
            if phone = "+628123" then (("", some (GoError.new "timeout")), n + 1)
            else (("sent", none), n + 1) }
        "+628999" "123456" (0 : Nat) =
      (("sent", none), 1, [Event.SendOtp "+628999" "123456"]) := by
  constructor
  · have h := (SendOTP_passes_outcome
        { SendOtp := fun phone _ n =>
            if phone = "+628123" then (("", some (GoError.new "timeout")), n + 1)
            else (("sent", none), n + 1) }
        "+628123" "123456" (0 : Nat)).2.2.2.2 (GoError.new "timeout") (by simp)
    exact Prod.ext h.1 (Prod.ext (by simp [SendOTP]) (by simpa [GoError.Error] using h.2))
  · decide

/-! ### The SMTP providers -/

/-- C2: for every `SMTPConfig`, `NewGenericSMTPProvider` returns an error and no
provider exactly when at least one of Host, Port, Username, Password is the
empty string, the error being the error of `Validate` wrapped with the
context "invalid config: "; when all four are non-empty it returns a provider
holding exactly that config and no error. -/
theorem NewGenericSMTPProvider_validates (config : SMTPConfig) :
    ((NewGenericSMTPProvider config).2 ≠ none ↔
      (config.Host = "" ∨ config.Port = "" ∨ config.Username = "" ∨ config.Password = "")) ∧
    ((NewGenericSMTPProvider config).1 = none ↔
      (config.Host = "" ∨ config.Port = "" ∨ config.Username = "" ∨ config.Password = "")) ∧
    ((config.Host = "" ∨ config.Port = "" ∨ config.Username = "" ∨ config.Password = "") →
      ∃ err, config.Validate = some err ∧
        NewGenericSMTPProvider config = (none, some (GoError.wrap "invalid config: " err)) ∧
        (GoError.wrap "invalid config: " err).Error = "invalid config: " ++ err.Error) ∧
    ((config.Host ≠ "" ∧ config.Port ≠ "" ∧ config.Username ≠ "" ∧ config.Password ≠ "") →
      config.Validate = none ∧
      NewGenericSMTPProvider config = (some { config := config }, none)) := by
  obtain ⟨host, port, username, password⟩ := config
  by_cases h1 : host = "" <;> by_cases h2 : port = "" <;> by_cases h3 : username = "" <;>
    by_cases h4 : password = "" <;>
    simp [NewGenericSMTPProvider, SMTPConfig.Validate, GoError.Error, h1, h2, h3, h4]

/-- C2, at concrete inputs: a config with an empty port is rejected with
"invalid config: port is required", a complete one is kept as it is. -/
theorem NewGenericSMTPProvider_validates_witness :
    (∃ err, ({ Host := "mail.example.com", Port := "", Username := "u", Password := "p" } :
        SMTPConfig).Validate = some err ∧
      NewGenericSMTPProvider
          { Host := "mail.example.com", Port := "", Username := "u", Password := "p" } =
        (none, some (GoError.wrap "invalid config: " err)) ∧
      (GoError.wrap "invalid config: " err).Error = "invalid config: " ++ err.Error) ∧
    NewGenericSMTPProvider
        { Host := "mail.example.com", Port := "25", Username := "u", Password := "p" } =
      (some { config :=
        { Host := "mail.example.com", Port := "25", Username := "u", Password := "p" } }, none) :=
  ⟨(NewGenericSMTPProvider_validates
      { Host := "mail.example.com", Port := "", Username := "u", Password := "p" }).2.2.1
      (Or.inr (Or.inl rfl)),
   ((NewGenericSMTPProvider_validates
      { Host := "mail.example.com", Port := "25", Username := "u", Password := "p" }).2.2.2
      (by decide)).2⟩

/-- C3: the specialized providers resolve to their fixed host and port whatever
the caller passes. For every username and password, any provider returned by
`NewGmailProvider` has `GetAddress()` = "smtp.gmail.com:587", any returned by
`NewZohoProvider` has "smtp.zoho.com:587" and any returned by
`NewOutlookProvider` has "smtp.office365.com:587", while `GetFrom()` is the
caller's username; and each constructor does return a provider, and no error,
when username and password are both non-empty. -/
theorem specialized_providers_fixed_address (username password : String) :
    (∀ g, (NewGmailProvider username password).1 = some g →
      g.GetAddress = some "smtp.gmail.com:587" ∧ g.GetFrom = some username) ∧
    (∀ z, (NewZohoProvider username password).1 = some z →
      z.GetAddress = some "smtp.zoho.com:587" ∧ z.GetFrom = some username) ∧
    (∀ o, (NewOutlookProvider username password).1 = some o →
      o.GetAddress = some "smtp.office365.com:587" ∧ o.GetFrom = some username) ∧
    ((username ≠ "" ∧ password ≠ "") →
      (∃ g, NewGmailProvider username password = (some g, none)) ∧
      (∃ z, NewZohoProvider username password = (some z, none)) ∧
      (∃ o, NewOutlookProvider username password = (some o, none))) := by
  by_cases h1 : username = "" <;> by_cases h2 : password = "" <;>
    simp [NewGmailProvider, NewZohoProvider, NewOutlookProvider, NewGenericSMTPProvider,
      SMTPConfig.Validate, GmailProvider.GetAddress, GmailProvider.GetFrom,
      ZohoProvider.GetAddress, ZohoProvider.GetFrom, OutlookProvider.GetAddress,
      OutlookProvider.GetFrom, GenericSMTPProvider.GetAddress, GenericSMTPProvider.GetFrom,
      h1, h2]

/-- C3, at the Gmail provider built for "alice@example.com" with the password
"smtp.evil.test:25": it is returned, and its address is still
"smtp.gmail.com:587". -/
theorem specialized_providers_fixed_address_witness :
    ∃ g, NewGmailProvider "alice@example.com" "smtp.evil.test:25" = (some g, none) ∧
      g.GetAddress = some "smtp.gmail.com:587" ∧ g.GetFrom = some "alice@example.com" := by
  have h := specialized_providers_fixed_address "alice@example.com" "smtp.evil.test:25"
  obtain ⟨g, hg⟩ := (h.2.2.2 (by decide)).1
  exact ⟨g, hg, h.1 g (by rw [hg])⟩

/-! ### The e-mail client -/

/-- C8: for every provider and every `EmailMessage`, `SendEmail` hands off to
the transport exactly once, with the provider's address, auth and sender, the
recipient list `msg.To` unchanged and in order, and the payload
"Subject: " ++ msg.Subject ++ "\r\n" ++ the MIME headers (version 1.0,
text/html, UTF-8) ++ msg.Body; it returns the result of the transport
unchanged and leaves the world as that one call left it. -/
theorem SendEmail_hands_off_once {σ : Type} (c : Client) (msg : EmailMessage)
    (transport : SendMail σ) (w : σ) :
    (c.SendEmail msg transport w).2.2 =
      [{ addr := c.provider.GetAddress,
         a := c.provider.GetAuth,
         sender := c.provider.GetFrom,
         recipients := msg.To,
         msg := "Subject: " ++ msg.Subject ++ "\r\n" ++
           "MIME-version: 1.0;\r\nContent-Type: text/html; charset=\"UTF-8\";\r\n\r\n" ++
           msg.Body }] ∧
    (c.SendEmail msg transport w).1 =
      (transport c.provider.GetAddress c.provider.GetAuth c.provider.GetFrom msg.To
        ("Subject: " ++ msg.Subject ++ "\r\n" ++
          "MIME-version: 1.0;\r\nContent-Type: text/html; charset=\"UTF-8\";\r\n\r\n" ++
          msg.Body) w).1 ∧
    (c.SendEmail msg transport w).2.1 =
      (transport c.provider.GetAddress c.provider.GetAuth c.provider.GetFrom msg.To
        ("Subject: " ++ msg.Subject ++ "\r\n" ++
          "MIME-version: 1.0;\r\nContent-Type: text/html; charset=\"UTF-8\";\r\n\r\n" ++
          msg.Body) w).2 :=
  ⟨rfl, rfl, rfl⟩

/-- C8, at a Gmail-like provider, two recipients and a transport that refuses
every message with the error "554" and counts its calls: one call, with the
payload spelled out, and the error "554" comes back. -/
theorem SendEmail_hands_off_once_witness :
    Client.SendEmail
        (NewClient
          { GetAuth := Auth.PlainAuth "" "u@x.io" "pw" "smtp.gmail.com",
            GetAddress := "smtp.gmail.com:587",
            GetFrom := "u@x.io" })
        { To := ["a@x.io", "b@x.io"], Subject := "Hi", Body := "<p>1</p>" }
        (fun _ _ _ _ _ n => (some (GoError.new "554"), n + 1)) (0 : Nat) =
      (some (GoError.new "554"), 1,
        [{ addr := "smtp.gmail.com:587",
           a := Auth.PlainAuth "" "u@x.io" "pw" "smtp.gmail.com",
           sender := "u@x.io",
           recipients := ["a@x.io", "b@x.io"],
           msg := "Subject: Hi\r\nMIME-version: 1.0;\r\n" ++
             "Content-Type: text/html; charset=\"UTF-8\";\r\n\r\n<p>1</p>" }]) := by
  have h := SendEmail_hands_off_once
    (NewClient
      { GetAuth := Auth.PlainAuth "" "u@x.io" "pw" "smtp.gmail.com",
        GetAddress := "smtp.gmail.com:587",
        GetFrom := "u@x.io" })
    { To := ["a@x.io", "b@x.io"], Subject := "Hi", Body := "<p>1</p>" }
    (fun _ _ _ _ _ n => (some (GoError.new "554"), n + 1)) (0 : Nat)
  refine Prod.ext h.2.1 (Prod.ext h.2.2 ?_)
  rw [h.1]
  decide

/-- C4: for every client, recipient list, subject, template and data, if
executing the template fails with an error err, `SendTemplateEmail` returns
the non-nil error that wraps err with the context
"template execution failed: ", the transport is not called at all and the
world is left as it was; the same holds for `SendSingleEmail`, for every
recipient. -/
theorem SendTemplateEmail_render_failure {σ δ : Type} (c : Client) (recipients : List String)
    (subject : String) (tmpl : Template δ) (data : δ) (transport : SendMail σ) (w : σ)
    (err : GoError) (h : (tmpl.Execute data).2 = some err) :
    c.SendTemplateEmail recipients subject tmpl data transport w =
      (some (GoError.wrap "template execution failed: " err), w, []) ∧
    (∀ recipient : String, c.SendSingleEmail recipient subject tmpl data transport w =
      (some (GoError.wrap "template execution failed: " err), w, [])) ∧
    (GoError.wrap "template execution failed: " err).Error =
      "template execution failed: " ++ err.Error ∧
    (GoError.wrap "template execution failed: " err).Unwrap = some err := by
  simp [Client.SendTemplateEmail, Client.SendSingleEmail, h, GoError.Error, GoError.Unwrap]

/-- C4, at a template whose execution writes "<p>Hello " and then fails with
"missing field": the wrapped error is returned, no call reaches the
transport (which would count it) and the counter stays at 0. -/
theorem SendTemplateEmail_render_failure_witness :
    Client.SendTemplateEmail
        (NewClient
          { GetAuth := Auth.PlainAuth "" "u@x.io" "pw" "smtp.gmail.com",
            GetAddress := "smtp.gmail.com:587",
            GetFrom := "u@x.io" })
        ["a@x.io"] "Hi"
        ({ Execute := fun _ => ("<p>Hello ", some (GoError.new "missing field")) } :
          Template Unit)
        () (fun _ _ _ _ _ n => (none, n + 1)) (0 : Nat) =
      (some (GoError.wrap "template execution failed: " (GoError.new "missing field")), 0, []) :=
  (SendTemplateEmail_render_failure
    (NewClient
      { GetAuth := Auth.PlainAuth "" "u@x.io" "pw" "smtp.gmail.com",
        GetAddress := "smtp.gmail.com:587",
        GetFrom := "u@x.io" })
    ["a@x.io"] "Hi"
    ({ Execute := fun _ => ("<p>Hello ", some (GoError.new "missing field")) } : Template Unit)
    () (fun _ _ _ _ _ n => (none, n + 1)) (0 : Nat) (GoError.new "missing field") rfl).1

end Internal
